import Mathlib

/-!
Shallow embedding of `lib/thing-access.js` from the
aliyun/linkedge-thing-access-sdk-nodejs repository.

The JavaScript module is single-threaded and promise-based.  Each public
operation is modelled as a pure function from the current state (the shared
`Session` singleton and, where relevant, a `ThingAccess` instance) together
with an environment `Env` giving the outcome of every bus RPC, to the new
state, the settled outcome of the returned promise (`Except Err`), and the
list of bus calls actually issued (`List Call`).  A memoized promise field
(`_xxxPromise` in the source) is modelled by an `Option (Except Err Unit)`
holding the settled outcome: `none` means the memo is absent, `some out`
means a resolved/rejected promise is memoized.  JS `Set`s keep insertion
order and may contain `undefined`, hence sets of device ids are lists of
`Option String` (`none` models the JS value `undefined`).
-/

/-- A JS `Error` value: a message plus the optional `code` tag attached by
`throwError` in the source. -/
structure Err where
  code : Option String := none
  message : String := ""
deriving DecidableEq, Repr

/-- Models `throwError(code, error)` from the source, the branch where the second
argument is already an `Error`: it overwrites the error's `code` field. -/
def tagErr (c : String) (e : Err) : Err := { e with code := some c }

/-- Models `throwError(code, message)` with a plain message string. -/
def mkErr (c : String) (m : String) : Err := { code := some c, message := m }

/-- A plain `new Error(message)` with no `code`. -/
def plainErr (m : String) : Err := { code := none, message := m }

/-- JSON values, modelling the payloads parsed with `JSON.parse` in the
source.  Objects are association lists in key insertion order. -/
inductive Json where
  | null : Json
  | bool : Bool → Json
  | num : Int → Json
  | str : String → Json
  | arr : List Json → Json
  | obj : List (String × Json) → Json
deriving Repr, Inhabited

/-- JS member access `o.k` on a parsed JSON value: `none` models `undefined`. -/
def Json.getField : Json → String → Option Json
  | .obj fs, k => fs.lookup k
  | _, _ => none

/-- String escaping performed by `JSON.stringify` (quotes and backslashes). -/
def jsonEscape (s : String) : String :=
  s.foldl (fun acc c =>
    if c = '\\' then acc ++ "\\\\"
    else if c = '"' then acc ++ "\\\""
    else acc.push c) ""

mutual

/-- Models `JSON.stringify`, restricted to the value forms of the model. -/
def Json.stringify : Json → String
  | .null => "null"
  | .bool true => "true"
  | .bool false => "false"
  | .num n => toString n
  | .str s => "\"" ++ jsonEscape s ++ "\""
  | .arr xs => "[" ++ jsonStringifyList xs ++ "]"
  | .obj fs => "\x7b" ++ jsonStringifyFields fs ++ "\x7d"

def jsonStringifyList : List Json → String
  | [] => ""
  | [x] => Json.stringify x
  | x :: xs => Json.stringify x ++ "," ++ jsonStringifyList xs

def jsonStringifyFields : List (String × Json) → String
  | [] => ""
  | [f] => "\"" ++ jsonEscape f.1 ++ "\":" ++ Json.stringify f.2
  | f :: fs =>
    "\"" ++ jsonEscape f.1 ++ "\":" ++ Json.stringify f.2 ++ "," ++
      jsonStringifyFields fs

end

/-- The reply a bus RPC delivers to its `(err, result)` callback, at the level
of abstraction of `handleDefaultResult`: an error argument, a falsy result, a
result that is not a JSON string, or a parsed `\x7bcode, message, params\x7d`
envelope. -/
inductive RpcReply where
  | failure : Err → RpcReply
  | noResult : RpcReply
  | notJson : RpcReply
  | parsed : Int → String → Option Json → RpcReply
deriving Repr

/-- Models `handleDefaultResult(error, result)` from the source: throws the error
argument, rejects falsy or non-JSON results, rejects a nonzero `code` with
the envelope's `message`, and otherwise returns the parsed envelope. -/
def handleDefaultResult : RpcReply → Except Err (Int × String × Option Json)
  | .failure e => .error e
  | .noResult => .error (plainErr "Illegal result from remote service.")
  | .notJson => .error (plainErr "Default result is not JSON string.")
  | .parsed c m p =>
    if c ≠ 0 then .error (plainErr m) else .ok (c, m, p)

/-- The value of `process.env.FUNCTION_ID`; fixed to the value the unit tests use. -/
def MODULE_NAME : String := "functionId"

/-- The value of `process.env.FUNCTION_NAME`; fixed to the value the unit tests use. -/
def FUNCTION_NAME : String := "functionName"

def MODULE_SERVICE_NAME : String := "iot.driver.id" ++ MODULE_NAME

def MODULE_OBJECT_PATH : String := "/iot/driver/id" ++ MODULE_NAME

def KEY_DRIVER_CONFIG : String := "gw_driverconfig_" ++ MODULE_NAME

def ERROR_REGISTER_MODULE : String := "register_module"
def ERROR_SETUP : String := "setup"
def ERROR_CLEANUP : String := "cleanup"
def ERROR_CONNECT : String := "connect"
def ERROR_DISCONNECT : String := "disconnect"
def ERROR_UNREGISTER : String := "unregister"

/-- A JS `Set` of device ids in insertion order; `none` is the JS value
`undefined`, which `Set.prototype.add` stores like any other value. -/
abbrev JsSet := List (Option String)

/-- Models `Set.prototype.add`: appends the value unless already present. -/
def setAdd (l : JsSet) (x : Option String) : JsSet :=
  if x ∈ l then l else l ++ [x]

/-- Models `Set.prototype.delete`: removes the value. -/
def setDelete (l : JsSet) (x : Option String) : JsSet :=
  l.filter (fun y => y != x)

/-- The shared `Session` singleton's state.  Handle-valued fields
(`edgeBus`, `dimuInterface`, `configInterface`) are modelled by their
truthiness.  `emitterListeners` counts the listeners registered on the
internal event emitter. -/
structure Session where
  edgeBus : Bool
  dimuInterface : Bool
  configInterface : Bool
  things : JsSet
  connectedThings : JsSet
  emitterListeners : Nat
  initializePromise : Option (Except Err Unit)
  finalizePromise : Option (Except Err Unit)
deriving Repr

/-- The state `Session._reset` (and the constructor) produces. -/
def Session.empty : Session :=
  { edgeBus := false, dimuInterface := false, configInterface := false
    things := [], connectedThings := [], emitterListeners := 0
    initializePromise := none, finalizePromise := none }

/-- Reply to the `get_config` RPC's `(err, code, result)` callback.  The
payload is `none` when the result string does not parse as JSON. -/
inductive GetConfigReply where
  | failure : Err → GetConfigReply
  | result : Int → Option Json → GetConfigReply
deriving Repr

/-- Outcomes of every external bus interaction, indexed by argument where the
source passes one.  `requestNameRaw` yields the `(err, retCode)` callback
values of `bus.requestName`; `releaseNameRaw` yields the `err` of
`bus.releaseName`. -/
structure Env where
  connectBus : Except Err Unit
  dimuIface : Except Err Unit
  configIface : Except Err Unit
  requestNameRaw : String → Except Err Int
  releaseNameRaw : String → Option Err
  registerDriver : RpcReply
  unregisterDriver : RpcReply
  connectDev : RpcReply
  disconnectDev : String → RpcReply
  unregisterDevice : String → RpcReply
  getConfigReply : String → GetConfigReply

/-- A record of one call actually issued on the bus. -/
inductive Call where
  | requestName : String → Call
  | releaseName : String → Call
  | registerDriver : Call
  | unregisterDriver : Call
  | connectDev : Call
  | disconnectDev : String → Call
  | unregisterDevice : String → Call
  | getConfigCall : String → Call
  | exportIface : String → Call
  | signal : String → String → Call
  | endConnection : Call
deriving DecidableEq, Repr

/-- Result of a `Session`-level operation: new session state, settled
outcome, and the bus calls issued. -/
structure SessRes (α : Type) where
  s : Session
  res : Except Err α
  calls : List Call
deriving Repr

/-- Models `Session.requestName(serviceName)`: fails without a bus handle; maps
`retCode` 1 to success and everything else to an error. -/
def Session.requestName (s : Session) (env : Env) (name : String) :
    SessRes Unit :=
  if ¬ s.edgeBus then
    ⟨s, .error (plainErr "Client has not been setup or has been cleanup."), []⟩
  else
    match env.requestNameRaw name with
    | .error _ =>
      ⟨s, .error (plainErr ("Could not request service name " ++ name ++ ".")),
        [.requestName name]⟩
    | .ok retCode =>
      if retCode = 1 then ⟨s, .ok (), [.requestName name]⟩
      else if retCode = 3 then
        ⟨s, .error (plainErr
          ("Failed to request service name " ++ name ++ ": already exists.")),
          [.requestName name]⟩
      else
        ⟨s, .error (plainErr
          ("Failed to request service name " ++ name ++ ": errno.")),
          [.requestName name]⟩

/-- Models `Session.releaseName(serviceName)`: fails without a bus handle; rejects
with the callback error when one is delivered. -/
def Session.releaseName (s : Session) (env : Env) (name : String) :
    SessRes Unit :=
  if ¬ s.edgeBus then
    ⟨s, .error (plainErr "Client has not been setup or has been cleanup."), []⟩
  else
    match env.releaseNameRaw name with
    | some e => ⟨s, .error e, [.releaseName name]⟩
    | none => ⟨s, .ok (), [.releaseName name]⟩

/-- Models `Session._registerModule()`: requires the dimu interface, issues the
`registerDriver` RPC and tags any failure with `register_module`. -/
def Session.registerModule (s : Session) (env : Env) : SessRes Unit :=
  if ¬ s.dimuInterface then
    ⟨s, .error (mkErr ERROR_REGISTER_MODULE
      "Client has not been setup or has been cleanup."), []⟩
  else
    match handleDefaultResult env.registerDriver with
    | .error e => ⟨s, .error (tagErr ERROR_REGISTER_MODULE e), [.registerDriver]⟩
    | .ok _ => ⟨s, .ok (), [.registerDriver]⟩

/-- Models `Session._unregisterModule()`: requires the dimu interface, issues the
`unregisterDriver` RPC; failures stay plain errors. -/
def Session.unregisterModule (s : Session) (env : Env) : SessRes Unit :=
  if ¬ s.dimuInterface then
    ⟨s, .error (plainErr "Client has not been setup or has been cleanup."), []⟩
  else
    match handleDefaultResult env.unregisterDriver with
    | .error e => ⟨s, .error e, [.unregisterDriver]⟩
    | .ok _ => ⟨s, .ok (), [.unregisterDriver]⟩

/-- Models `Session._initializeEdgeBus()`: connects the bus, then acquires the dimu
and config-manager default interfaces, recording each handle as it is
obtained (a later failure leaves the earlier handles set). -/
def Session.initializeEdgeBus (s : Session) (env : Env) : SessRes Unit :=
  match env.connectBus with
  | .error e => ⟨s, .error e, []⟩
  | .ok _ =>
    let s := { s with edgeBus := true }
    match env.dimuIface with
    | .error e => ⟨s, .error e, []⟩
    | .ok _ =>
      let s := { s with dimuInterface := true }
      match env.configIface with
      | .error e => ⟨s, .error e, []⟩
      | .ok _ => ⟨{ s with configInterface := true }, .ok (), []⟩

/-- Models `Session.exportInterface` guarded by the bus handle, as called from
`_exportModuleInterface` and `_exportDefaultThingInterface`. -/
def Session.exportInterface (s : Session) (objPath : String) :
    SessRes Unit :=
  if ¬ s.edgeBus then
    ⟨s, .error (plainErr "Client has not been setup or has been cleanup."), []⟩
  else
    ⟨s, .ok (), [.exportIface objPath]⟩

/-- The rollback closure inside `Session.initializeOp`'s catch handler:
clears the interface handles, ends the bus connection if present, clears the
memoized initialize promise and rethrows the original error. -/
def Session.initRollback (s : Session) (e : Err) : SessRes Unit :=
  let calls : List Call := if s.edgeBus then [.endConnection] else []
  ⟨{ s with configInterface := false, dimuInterface := false,
            edgeBus := false, initializePromise := none },
    .error e, calls⟩

/-- Models `Session.initializeOp()`: returns the memoized outcome if present;
otherwise connects the bus, requests the module service name, exports the
module interface, registers the module, and on failure releases the name
(only when the failure carries the `register_module` code) before rolling
back and rethrowing. -/
def Session.initializeOp (s : Session) (env : Env) : SessRes Unit :=
  match s.initializePromise with
  | some out => ⟨s, out, []⟩
  | none =>
    let r1 := s.initializeEdgeBus env
    match r1.res with
    | .error e =>
      let rb := Session.initRollback r1.s e
      ⟨rb.s, rb.res, r1.calls ++ rb.calls⟩
    | .ok _ =>
      let r2 := r1.s.requestName env MODULE_SERVICE_NAME
      match r2.res with
      | .error e =>
        let rb := Session.initRollback r2.s e
        ⟨rb.s, rb.res, r1.calls ++ r2.calls ++ rb.calls⟩
      | .ok _ =>
        let r3 := r2.s.exportInterface MODULE_OBJECT_PATH
        match r3.res with
        | .error e =>
          let rb := Session.initRollback r3.s e
          ⟨rb.s, rb.res, r1.calls ++ r2.calls ++ r3.calls ++ rb.calls⟩
        | .ok _ =>
          let r4 := r3.s.registerModule env
          match r4.res with
          | .error e =>
            if e.code = some ERROR_REGISTER_MODULE then
              let rel := r4.s.releaseName env MODULE_SERVICE_NAME
              -- `.then(rollback, rollback)`: the release outcome is ignored.
              let rb := Session.initRollback rel.s e
              ⟨rb.s, rb.res,
                r1.calls ++ r2.calls ++ r3.calls ++ r4.calls ++ rel.calls
                  ++ rb.calls⟩
            else
              let rb := Session.initRollback r4.s e
              ⟨rb.s, rb.res, r1.calls ++ r2.calls ++ r3.calls ++ r4.calls
                ++ rb.calls⟩
          | .ok _ =>
            ⟨{ r4.s with initializePromise := some (.ok ()),
                         finalizePromise := none },
              .ok (), r1.calls ++ r2.calls ++ r3.calls ++ r4.calls⟩

/-- The `reset` closure inside `Session.finalize`: removes all emitter
listeners, clears both device sets and the interface handles, ends the bus
connection if present, and clears the memoized initialize promise.  It never
throws. -/
def Session.finalizeReset (s : Session) : Session × List Call :=
  let calls : List Call := if s.edgeBus then [.endConnection] else []
  ({ s with emitterListeners := 0, connectedThings := [], things := [],
            configInterface := false, dimuInterface := false,
            edgeBus := false, initializePromise := none }, calls)

/-- Models `Session.finalize()`: returns the memoized outcome if present; otherwise
unregisters the module (a failure here rejects finalize, clears the memo and
skips the remaining steps), then releases the module service name and —
whether or not the release succeeded — resets all session state. -/
def Session.finalize (s : Session) (env : Env) : SessRes Unit :=
  match s.finalizePromise with
  | some out => ⟨s, out, []⟩
  | none =>
    let r1 := s.unregisterModule env
    match r1.res with
    | .error e =>
      -- catch: clear the memoized finalize promise and rethrow.
      ⟨{ r1.s with finalizePromise := none }, .error e, r1.calls⟩
    | .ok _ =>
      let rel := r1.s.releaseName env MODULE_SERVICE_NAME
      -- `.then(reset, reset)`: reset runs either way and the release
      -- error is deliberately not rethrown.
      let (s2, c2) := Session.finalizeReset rel.s
      ⟨{ s2 with finalizePromise := some (.ok ()) }, .ok (),
        r1.calls ++ rel.calls ++ c2⟩

/-- Renders a device-set entry for the `devList` JSON array
(`JSON.stringify` turns `undefined` array elements into `null`). -/
def devToJson : Option String → Json
  | some t => .str t
  | none => .null

/-- Models `String.prototype.split` with a one-character separator, at the
character-list level. -/
def jsSplitChar (c : Char) : List Char → List (List Char)
  | [] => [[]]
  | x :: xs =>
    if x = c then [] :: jsSplitChar c xs
    else
      match jsSplitChar c xs with
      | [] => [[x]]
      | y :: ys => (x :: y) :: ys

/-- Models `selector.split('=')`. -/
def jsSplit (sep : Char) (s : String) : List String :=
  (jsSplitChar sep s.data).map (fun l => ⟨l⟩)

/-- Models `String.prototype.trim`: strips whitespace from both ends. -/
def jsTrim (s : String) : String :=
  ⟨((s.data.dropWhile Char.isWhitespace).reverse.dropWhile
      Char.isWhitespace).reverse⟩

/-- The value part of the `key=value` selector string:
`selector.split('=').map(item => item.trim())[1]`.  An absent selector and
the empty string (both falsy in JS) yield `none`, taking the no-selector
branch. -/
def selectorValue : Option String → Option String
  | none => none
  | some sel =>
    if sel = "" then none
    else ((jsSplit '=' sel).map jsTrim).get? 1

/-- The device-id list `getDeviceList` selects: the connected set for
`online`, the known-but-not-connected ids for `offline`, and the full known
set otherwise. -/
def deviceListOf (s : Session) (selector : Option String) : JsSet :=
  match selectorValue selector with
  | some "online" => s.connectedThings
  | some "offline" =>
    s.things.filter (fun t => ! s.connectedThings.contains t)
  | _ => s.things

/-- The `getDeviceList` method exported on the module interface: filters the
session's device sets by the value part of the `key=value` selector and
wraps the list in the `\x7bcode, message, params\x7d` envelope. -/
def getDeviceList (s : Session) (selector : Option String) : Json :=
  let list : JsSet := deviceListOf s selector
  Json.obj
    [("code", .num 0), ("message", .str "success"),
     ("params", .obj
       [("devNum", .num list.length),
        ("devList", .arr (list.map devToJson))])]

/-- Models `DriverConfigManager.getConfig()`: initializes the session, issues
the `get_config` RPC for the driver-config key, fails on a callback error, a
nonzero status code or a non-JSON payload, and otherwise re-serializes just
the `deviceList` and `config` members of the parsed payload
(`JSON.stringify` drops members whose value is `undefined`). -/
def DriverConfigManager.getConfig (s : Session) (env : Env) : SessRes String :=
  let r1 := s.initializeOp env
  match r1.res with
  | .error e => ⟨r1.s, .error e, r1.calls⟩
  | .ok _ =>
    if ¬ r1.s.configInterface then
      -- `session.configInterface[getConfig]` raises a TypeError when the
      -- handle is absent
      ⟨r1.s, .error (plainErr "TypeError: configInterface is undefined"),
        r1.calls⟩
    else
      match env.getConfigReply KEY_DRIVER_CONFIG with
      | .failure e =>
        ⟨r1.s, .error e, r1.calls ++ [.getConfigCall KEY_DRIVER_CONFIG]⟩
      | .result c payload =>
        if c ≠ 0 then
          ⟨r1.s, .error (plainErr "Get config failed: nonzero errno"),
            r1.calls ++ [.getConfigCall KEY_DRIVER_CONFIG]⟩
        else
          match payload with
          | none =>
            -- `JSON.parse(result)` throws a SyntaxError
            ⟨r1.s, .error (plainErr "SyntaxError: result is not JSON"),
              r1.calls ++ [.getConfigCall KEY_DRIVER_CONFIG]⟩
          | some j =>
            let fields :=
              (match j.getField "deviceList" with
               | some v => [("deviceList", v)]
               | none => []) ++
              (match j.getField "config" with
               | some v => [("config", v)]
               | none => [])
            ⟨r1.s, .ok (Json.stringify (Json.obj fields)),
              r1.calls ++ [.getConfigCall KEY_DRIVER_CONFIG]⟩

/-- The configuration record a `ThingAccess` instance is constructed with. -/
structure ThingConfig where
  productKey : String
  deviceName : Option String
  localName : Option String
deriving Repr

/-- Per-device state of a `ThingAccess` instance: the cloud-assigned device
id, the exported per-device interface handle (by truthiness), and the
memoized per-operation promises. -/
structure ThingAccess where
  config : ThingConfig
  thingId : Option String
  thingInterface : Bool
  setupPromise : Option (Except Err Unit)
  connectPromise : Option (Except Err Unit)
  disconnectPromise : Option (Except Err Unit)
  unregisterPromise : Option (Except Err Unit)
  cleanupPromise : Option (Except Err Unit)
  getTslPromise : Option (Except Err Unit)
  getTslExtInfoPromise : Option (Except Err Unit)
deriving Repr

/-- The state the `ThingAccess` constructor produces. -/
def ThingAccess.new (cfg : ThingConfig) : ThingAccess :=
  { config := cfg, thingId := none, thingInterface := false
    setupPromise := none, connectPromise := none, disconnectPromise := none
    unregisterPromise := none, cleanupPromise := none
    getTslPromise := none, getTslExtInfoPromise := none }

/-- Result of a `ThingAccess`-level operation. -/
structure ThRes where
  th : ThingAccess
  s : Session
  res : Except Err Unit
  calls : List Call
deriving Repr

/-- Models `ThingAccess.setup()`: memoized; ensures `session.initialize()`;
on success clears the other per-operation memos; on failure clears its own
memo and rethrows tagged `setup`. -/
def ThingAccess.setup (th : ThingAccess) (s : Session) (env : Env) : ThRes :=
  match th.setupPromise with
  | some out => ⟨th, s, out, []⟩
  | none =>
    let r := s.initializeOp env
    match r.res with
    | .ok _ =>
      ⟨{ th with setupPromise := some (.ok ()),
                 unregisterPromise := none, connectPromise := none,
                 disconnectPromise := none, getTslPromise := none,
                 getTslExtInfoPromise := none, cleanupPromise := none },
        r.s, .ok (), r.calls⟩
    | .error e =>
      ⟨{ th with setupPromise := none }, r.s,
        .error (tagErr ERROR_SETUP e), r.calls⟩

/-- Models `ThingAccess._connect`: requires the dimu interface, issues the
dimu `connect` RPC and extracts `params.deviceCloudId` from the reply.
Device cloud ids are modelled as nonempty JSON strings; a missing `params`
or a falsy `deviceCloudId` is rejected as in the source. -/
def ThingAccess.connectRpc (s : Session) (env : Env) : SessRes String :=
  if ¬ s.dimuInterface then
    ⟨s, .error (plainErr "Client has not been setup or setup failed."), []⟩
  else
    match handleDefaultResult env.connectDev with
    | .error e => ⟨s, .error e, [.connectDev]⟩
    | .ok (_, _, params) =>
      match params with
      | none =>
        ⟨s, .error (plainErr "Returned result is illegal."), [.connectDev]⟩
      | some p =>
        match p.getField "deviceCloudId" with
        | some (.str tid) =>
          if tid = "" then
            ⟨s, .error (plainErr "Returned result is illegal."), [.connectDev]⟩
          else ⟨s, .ok tid, [.connectDev]⟩
        | _ =>
          ⟨s, .error (plainErr "Returned result is illegal."), [.connectDev]⟩

/-- Models `ThingAccess._disconnect(thingId)`: requires the dimu interface
and issues the dimu `disconnect` RPC. -/
def ThingAccess.disconnectRpc (s : Session) (env : Env) (thingId : String) :
    SessRes Unit :=
  if ¬ s.dimuInterface then
    ⟨s, .error (plainErr "Client has not been setup or setup failed."), []⟩
  else
    match handleDefaultResult (env.disconnectDev thingId) with
    | .error e => ⟨s, .error e, [.disconnectDev thingId]⟩
    | .ok _ => ⟨s, .ok (), [.disconnectDev thingId]⟩

/-- Models `ThingAccess._unregisterThing(thingId)`: requires the dimu
interface and issues the `unregisterDevice` RPC. -/
def ThingAccess.unregisterThing (s : Session) (env : Env) (thingId : String) :
    SessRes Unit :=
  if ¬ s.dimuInterface then
    ⟨s, .error (plainErr "Client has not been setup or setup failed."), []⟩
  else
    match handleDefaultResult (env.unregisterDevice thingId) with
    | .error e => ⟨s, .error e, [.unregisterDevice thingId]⟩
    | .ok _ => ⟨s, .ok (), [.unregisterDevice thingId]⟩

/-- The catch handler of `ThingAccess.connect()`: if a device id had been
stored, removes it from both session sets, clears it and best-effort
disconnects it (outcome ignored); then clears the connect memo and rethrows
tagged `connect`.  A stored empty-string id is falsy in JS and skips the
compensation. -/
def ThingAccess.connectCatch (th : ThingAccess) (s : Session) (env : Env)
    (e : Err) (acc : List Call) : ThRes :=
  match th.thingId with
  | some tid =>
    if tid = "" then
      ⟨{ th with connectPromise := none }, s,
        .error (tagErr ERROR_CONNECT e), acc⟩
    else
      let s1 := { s with
        connectedThings := setDelete s.connectedThings (some tid),
        things := setDelete s.things (some tid) }
      let th1 := { th with thingId := none }
      let rd := ThingAccess.disconnectRpc s1 env tid
      ⟨{ th1 with connectPromise := none }, rd.s,
        .error (tagErr ERROR_CONNECT e), acc ++ rd.calls⟩
  | none =>
    ⟨{ th with connectPromise := none }, s,
      .error (tagErr ERROR_CONNECT e), acc⟩

/-- Models `ThingAccess.connect()`: memoized; issues the dimu `connect` RPC,
stores the returned device id in the instance and in both session sets,
requests the device-scoped service name, exports the per-device interface
and clears the disconnect memo.  Any failure goes through the catch
handler. -/
def ThingAccess.connect (th : ThingAccess) (s : Session) (env : Env) : ThRes :=
  match th.connectPromise with
  | some out => ⟨th, s, out, []⟩
  | none =>
    let r1 := ThingAccess.connectRpc s env
    match r1.res with
    | .error e => ThingAccess.connectCatch th r1.s env e r1.calls
    | .ok tid =>
      let th1 := { th with thingId := some tid }
      let s1 := { r1.s with
        things := setAdd r1.s.things (some tid),
        connectedThings := setAdd r1.s.connectedThings (some tid) }
      let r2 := s1.requestName env ("iot.device.id" ++ tid)
      match r2.res with
      | .error e => ThingAccess.connectCatch th1 r2.s env e (r1.calls ++ r2.calls)
      | .ok _ =>
        let r3 := r2.s.exportInterface ("/iot/device/id" ++ tid)
        match r3.res with
        | .error e =>
          ThingAccess.connectCatch th1 r3.s env e
            (r1.calls ++ r2.calls ++ r3.calls)
        | .ok _ =>
          ⟨{ th1 with thingInterface := true, disconnectPromise := none,
                      connectPromise := some (.ok ()) },
            r3.s, .ok (), r1.calls ++ r2.calls ++ r3.calls⟩

/-- The catch handler of `ThingAccess.disconnect()`: restores the captured
exported-interface reference and device id, re-adds the captured id to both
session sets (`Set.add(undefined)` stores `undefined` when no id was set),
clears the disconnect memo and rethrows tagged `disconnect`. -/
def ThingAccess.disconnectCatch (th : ThingAccess) (s : Session)
    (thingId : Option String) (thingInterface : Bool) (e : Err)
    (acc : List Call) : ThRes :=
  ⟨{ th with thingInterface := thingInterface, thingId := thingId,
             disconnectPromise := none },
    { s with connectedThings := setAdd s.connectedThings thingId,
             things := setAdd s.things thingId },
    .error (tagErr ERROR_DISCONNECT e), acc⟩

/-- Models `ThingAccess.disconnect()`: memoized; captures the current device
id and interface, fails when no (truthy) device id is set, otherwise clears
the local fields, removes the id from both session sets, issues the dimu
`disconnect` RPC, and on success best-effort releases the device-scoped
service name (a release failure is swallowed) and clears the connect memo.
On RPC failure the catch handler restores the captured state. -/
def ThingAccess.disconnect (th : ThingAccess) (s : Session) (env : Env) : ThRes :=
  let thingId := th.thingId
  let thingInterface := th.thingInterface
  match th.disconnectPromise with
  | some out => ⟨th, s, out, []⟩
  | none =>
    match thingId with
    | none =>
      ThingAccess.disconnectCatch th s thingId thingInterface
        (plainErr "Thing has not been connected.") []
    | some tid =>
      if tid = "" then
        -- the empty string is falsy in JS, failing the `if (!thingId)` guard
        ThingAccess.disconnectCatch th s thingId thingInterface
          (plainErr "Thing has not been connected.") []
      else
        let th1 := { th with thingInterface := false, thingId := none }
        let s1 := { s with
          connectedThings := setDelete s.connectedThings (some tid),
          things := setDelete s.things (some tid) }
        let rd := ThingAccess.disconnectRpc s1 env tid
        match rd.res with
        | .error e =>
          ThingAccess.disconnectCatch th1 rd.s thingId thingInterface e rd.calls
        | .ok _ =>
          let rel := rd.s.releaseName env ("iot.device.id" ++ tid)
          -- the release outcome is logged and ignored
          ⟨{ th1 with connectPromise := none,
                      disconnectPromise := some (.ok ()) },
            rel.s, .ok (), rd.calls ++ rel.calls⟩

/-- Models `ThingAccess.unregister()`: memoized; captures the current device
id, forces a disconnect first if the connect memo is present, requires the
captured id to be truthy, then issues the `unregisterDevice` RPC.  Any
failure clears the memo and rethrows tagged `unregister` without further
rollback. -/
def ThingAccess.unregister (th : ThingAccess) (s : Session) (env : Env) : ThRes :=
  let thingId := th.thingId
  match th.unregisterPromise with
  | some out => ⟨th, s, out, []⟩
  | none =>
    let r1 : ThRes :=
      if th.connectPromise.isSome then ThingAccess.disconnect th s env
      else ⟨th, s, .ok (), []⟩
    match r1.res with
    | .error e =>
      ⟨{ r1.th with unregisterPromise := none }, r1.s,
        .error (tagErr ERROR_UNREGISTER e), r1.calls⟩
    | .ok _ =>
      match thingId with
      | none =>
        ⟨{ r1.th with unregisterPromise := none }, r1.s,
          .error (mkErr ERROR_UNREGISTER
            "Thing has not been connected or has been cleaned up."),
          r1.calls⟩
      | some tid =>
        if tid = "" then
          ⟨{ r1.th with unregisterPromise := none }, r1.s,
            .error (mkErr ERROR_UNREGISTER
              "Thing has not been connected or has been cleaned up."),
            r1.calls⟩
        else
          let ru := ThingAccess.unregisterThing r1.s env tid
          match ru.res with
          | .error e =>
            ⟨{ r1.th with unregisterPromise := none }, ru.s,
              .error (tagErr ERROR_UNREGISTER e), r1.calls ++ ru.calls⟩
          | .ok _ =>
            ⟨{ r1.th with unregisterPromise := some (.ok ()) }, ru.s,
              .ok (), r1.calls ++ ru.calls⟩

/-- Models `ThingAccess.cleanup()`: memoized; forces a disconnect first if
the connect memo is present; then, if the setup memo is present, clears all
per-operation memos.  A failure clears the cleanup memo and rethrows tagged
`cleanup`. -/
def ThingAccess.cleanup (th : ThingAccess) (s : Session) (env : Env) : ThRes :=
  match th.cleanupPromise with
  | some out => ⟨th, s, out, []⟩
  | none =>
    let r1 : ThRes :=
      if th.connectPromise.isSome then ThingAccess.disconnect th s env
      else ⟨th, s, .ok (), []⟩
    match r1.res with
    | .error e =>
      ⟨{ r1.th with cleanupPromise := none }, r1.s,
        .error (tagErr ERROR_CLEANUP e), r1.calls⟩
    | .ok _ =>
      let th2 :=
        if r1.th.setupPromise.isSome then
          { r1.th with setupPromise := none, unregisterPromise := none,
                       connectPromise := none, disconnectPromise := none,
                       getTslPromise := none, getTslExtInfoPromise := none }
        else r1.th
      ⟨{ th2 with cleanupPromise := some (.ok ()) }, r1.s, .ok (), r1.calls⟩

/-- Models `ThingAccess._signalSubscribe(signalName, signature, body)`:
rejects an empty signal name, requires a truthy device id, and sends the
signal message through the session (which requires the bus handle). -/
def ThingAccess.signalSubscribe (th : ThingAccess) (s : Session)
    (signalName : String) (body : String) : Except Err Unit × List Call :=
  if signalName = "" then
    (.error (plainErr "Trying to emit undefined signal."), [])
  else
    match th.thingId with
    | none =>
      (.error (plainErr "You should connect before calling this method."), [])
    | some tid =>
      if tid = "" then
        (.error (plainErr "You should connect before calling this method."), [])
      else if ¬ s.edgeBus then
        (.error (plainErr "Client has not been setup or has been cleanup."), [])
      else
        (.ok (), [.signal signalName body])

/-- Models `ThingAccess.signalEvent(eventName, args)`: wraps the argument
object unchanged under `value` together with a single timestamp, and emits
the JSON string. -/
def ThingAccess.signalEvent (th : ThingAccess) (s : Session)
    (eventName : String) (args : Json) (now : Int) :
    Except Err Unit × List Call :=
  let values := Json.obj
    [("params", Json.obj [("time", .num now), ("value", args)])]
  ThingAccess.signalSubscribe th s eventName (Json.stringify values)

/-- Models `ThingAccess.signalProperties(properties)`: copies the caller's
object (`Object.assign` on a fresh object, so the argument is never
mutated), wraps each property value with a timestamp, and emits the JSON
string of the copy on the `propertiesChanged` signal. -/
def ThingAccess.signalProperties (th : ThingAccess) (s : Session)
    (properties : List (String × Json)) (now : Int) :
    Except Err Unit × List Call :=
  let props := properties.map
    (fun kv => (kv.1, Json.obj [("value", kv.2), ("time", Json.num now)]))
  ThingAccess.signalSubscribe th s "propertiesChanged"
    (Json.stringify (Json.obj props))

/-- Runs the lifecycle sequence setup, connect, disconnect, unregister,
cleanup on one device-access instance and returns the five step results. -/
def lifecycle (th : ThingAccess) (s : Session) (env : Env) :
    ThRes × ThRes × ThRes × ThRes × ThRes :=
  let r1 := ThingAccess.setup th s env
  let r2 := ThingAccess.connect r1.th r1.s env
  let r3 := ThingAccess.disconnect r2.th r2.s env
  let r4 := ThingAccess.unregister r3.th r3.s env
  let r5 := ThingAccess.cleanup r4.th r4.s env
  (r1, r2, r3, r4, r5)

/-- Repeated sequential calls of `Session.initializeOp`: final state, the list
of per-call outcomes, and all calls issued. -/
def initSeq (s : Session) (env : Env) : Nat → Session × List (Except Err Unit) × List Call
  | 0 => (s, [], [])
  | n + 1 =>
    let r := s.initializeOp env
    let rest := initSeq r.s env n
    (rest.1, r.res :: rest.2.1, r.calls ++ rest.2.2)

/-- A sample device configuration for concrete executions. -/
def cfg0 : ThingConfig := { productKey := "pk", deviceName := some "dn", localName := none }

/-- An environment in which every bus interaction succeeds; the dimu
`connect` RPC assigns the device cloud id `thing1`. -/
def envOk : Env where
  connectBus := .ok ()
  dimuIface := .ok ()
  configIface := .ok ()
  requestNameRaw := fun _ => .ok 1
  releaseNameRaw := fun _ => none
  registerDriver := .parsed 0 "success" none
  unregisterDriver := .parsed 0 "success" none
  connectDev := .parsed 0 "success" (some (.obj [("deviceCloudId", .str "thing1")]))
  disconnectDev := fun _ => .parsed 0 "success" none
  unregisterDevice := fun _ => .parsed 0 "success" none
  getConfigReply := fun _ => .result 0 (some (.obj []))

/-- The all-success environment except that the `registerDriver` RPC replies
with a nonzero code. -/
def envRegFail : Env := { envOk with registerDriver := .parsed 5 "register failed" none }

/-- The all-success environment except that the `unregisterDriver` RPC
delivers a callback error. -/
def envUnregFail : Env :=
  { envOk with unregisterDriver := .failure (plainErr "Cannot unregister module") }

/-- The all-success environment except that every `releaseName` delivers a
callback error. -/
def envReleaseFail : Env :=
  { envOk with releaseNameRaw := fun _ => some (plainErr "release failed") }

/-- A session state right after a successful `initialize` with one device
connected, as reached by `setup` plus `connect`. -/
def sessInit : Session :=
  { edgeBus := true, dimuInterface := true, configInterface := true
    things := [some "dev1"], connectedThings := [some "dev1"]
    emitterListeners := 2
    initializePromise := some (.ok ()), finalizePromise := none }


/-! ## Helper lemmas -/

theorem mem_setAdd {l : JsSet} {x y : Option String} :
    y ∈ setAdd l x ↔ y ∈ l ∨ y = x := by
  unfold setAdd
  split
  · constructor
    · exact Or.inl
    · rintro (hy | rfl) <;> assumption
  · simp [List.mem_append]

theorem mem_setDelete {l : JsSet} {x y : Option String} :
    y ∈ setDelete l x ↔ y ∈ l ∧ y ≠ x := by
  simp [setDelete, List.mem_filter, bne_iff_ne]

theorem mem_setAdd_setDelete {l : JsSet} {x y : Option String} (hx : x ∈ l) :
    y ∈ setAdd (setDelete l x) x ↔ y ∈ l := by
  rw [mem_setAdd, mem_setDelete]
  constructor
  · rintro (⟨h1, _⟩ | rfl)
    · exact h1
    · exact hx
  · intro hy
    by_cases hyx : y = x
    · exact Or.inr hyx
    · exact Or.inl ⟨hy, hyx⟩

/-- A memoized initialize promise is returned as is, with no bus calls. -/
theorem initialize_memoized (s : Session) (env : Env) (out : Except Err Unit)
    (h : s.initializePromise = some out) :
    Session.initializeOp s env = ⟨s, out, []⟩ := by
  unfold Session.initializeOp
  rw [h]

/-! ## C6: disconnect without a device id -/

/-- C6: for every device-access instance whose device id is unset (and
whose disconnect memo is empty), `disconnect()` rejects with the
precondition error tagged `disconnect`, and no bus call at all — in
particular no shutdown/disconnect RPC — is issued. -/
theorem disconnect_no_id_rejects (th : ThingAccess) (s : Session) (env : Env)
    (hmemo : th.disconnectPromise = none) (hid : th.thingId = none) :
    (ThingAccess.disconnect th s env).res =
      .error { code := some ERROR_DISCONNECT,
               message := "Thing has not been connected." } ∧
    (ThingAccess.disconnect th s env).calls = [] := by
  simp [ThingAccess.disconnect, hmemo, hid, ThingAccess.disconnectCatch,
    tagErr, plainErr]

theorem disconnect_no_id_rejects_witness :
    (ThingAccess.disconnect (ThingAccess.new cfg0) Session.empty envOk).res =
      .error { code := some ERROR_DISCONNECT,
               message := "Thing has not been connected." } ∧
    (ThingAccess.disconnect (ThingAccess.new cfg0) Session.empty envOk).calls = [] :=
  disconnect_no_id_rejects (ThingAccess.new cfg0) Session.empty envOk rfl rfl

/-! ## C7: getDeviceList -/

/-- C7: for every selector, `getDeviceList` returns the
`\x7bcode: 0, message: 'success', params: \x7bdevNum, devList\x7d\x7d`
envelope where the selected list is the connected set for the value part
`online`, the known-but-not-connected ids for `offline`, the full known set
otherwise, and `devNum` always equals the length of `devList`. -/
theorem getDeviceList_envelope (s : Session) (sel : Option String) :
    getDeviceList s sel = Json.obj
      [("code", .num 0), ("message", .str "success"),
       ("params", .obj
         [("devNum", .num (deviceListOf s sel).length),
          ("devList", .arr ((deviceListOf s sel).map devToJson))])] ∧
    ((deviceListOf s sel).map devToJson).length = (deviceListOf s sel).length ∧
    (selectorValue sel = some "online" →
      deviceListOf s sel = s.connectedThings) ∧
    (selectorValue sel = some "offline" →
      deviceListOf s sel =
        s.things.filter (fun t => ! s.connectedThings.contains t)) ∧
    (selectorValue sel ≠ some "online" → selectorValue sel ≠ some "offline" →
      deviceListOf s sel = s.things) := by
  refine ⟨rfl, List.length_map _ _, ?_, ?_, ?_⟩
  · intro h; simp [deviceListOf, h]
  · intro h; simp [deviceListOf, h]
  · intro h1 h2
    unfold deviceListOf
    split
    · simp_all
    · simp_all
    · rfl

/-- A session with one connected device and one known-but-offline device. -/
def sessTwo : Session :=
  { sessInit with things := [some "a", some "b"], connectedThings := [some "a"] }

theorem getDeviceList_envelope_witness :
    selectorValue (some "deviceState=online") = some "online" ∧
    getDeviceList sessTwo (some "deviceState=online") = Json.obj
      [("code", .num 0), ("message", .str "success"),
       ("params", .obj
         [("devNum", .num 1), ("devList", .arr [.str "a"])])] := by
  have h := getDeviceList_envelope sessTwo (some "deviceState=online")
  have hv : selectorValue (some "deviceState=online") = some "online" := by decide
  have hl := h.2.2.1 hv
  refine ⟨hv, ?_⟩
  rw [h.1, hl]
  rfl

/-! ## C5: disconnect rollback on RPC failure -/

/-- C5: while a device is connected, if the dimu `disconnect` RPC fails the
operation rolls back — the saved interface reference and device id are
restored, the id is re-added so both session sets have the same members as
before the call, the disconnect memo is cleared and the error is rethrown
tagged `disconnect`; whereas on RPC success the operation resolves
successfully whatever the outcome of the device-service-name release. -/
theorem disconnect_rpc_failure_rolls_back (th : ThingAccess) (s : Session)
    (env : Env) (tid : String) (e : Err)
    (hmemo : th.disconnectPromise = none) (hid : th.thingId = some tid)
    (hne : tid ≠ "") (hdimu : s.dimuInterface = true)
    (hc : some tid ∈ s.connectedThings) (ht : some tid ∈ s.things) :
    (handleDefaultResult (env.disconnectDev tid) = .error e →
      (ThingAccess.disconnect th s env).th.thingId = some tid ∧
      (ThingAccess.disconnect th s env).th.thingInterface = th.thingInterface ∧
      (ThingAccess.disconnect th s env).th.disconnectPromise = none ∧
      (ThingAccess.disconnect th s env).res =
        .error (tagErr ERROR_DISCONNECT e) ∧
      (∀ x, x ∈ (ThingAccess.disconnect th s env).s.connectedThings ↔
        x ∈ s.connectedThings) ∧
      (∀ x, x ∈ (ThingAccess.disconnect th s env).s.things ↔ x ∈ s.things)) ∧
    (∀ c m p, handleDefaultResult (env.disconnectDev tid) = .ok (c, m, p) →
      (ThingAccess.disconnect th s env).res = .ok ()) := by
  constructor
  · intro herr
    simp [ThingAccess.disconnect, ThingAccess.disconnectRpc,
      ThingAccess.disconnectCatch, hmemo, hid, hne, hdimu, herr]
    exact ⟨fun x => mem_setAdd_setDelete hc, fun x => mem_setAdd_setDelete ht⟩
  · intro c m p hok
    simp [ThingAccess.disconnect, ThingAccess.disconnectRpc, hmemo, hid, hne,
      hdimu, hok]

/-- A device-access instance in the connected state with device id `dev1`. -/
def thConn : ThingAccess :=
  { ThingAccess.new cfg0 with thingId := some "dev1", thingInterface := true,
                              setupPromise := some (.ok ()),
                              connectPromise := some (.ok ()) }

/-- The all-success environment except that the dimu `disconnect` RPC
delivers a callback error. -/
def envDiscFail : Env :=
  { envOk with disconnectDev := fun _ => .failure (plainErr "disc fail") }

theorem disconnect_rpc_failure_rolls_back_witness :
    ((ThingAccess.disconnect thConn sessInit envDiscFail).th.thingId =
        some "dev1" ∧
      (ThingAccess.disconnect thConn sessInit envDiscFail).res =
        .error (tagErr ERROR_DISCONNECT (plainErr "disc fail")) ∧
      (some "dev1" ∈
          (ThingAccess.disconnect thConn sessInit envDiscFail).s.connectedThings ↔
        some "dev1" ∈ sessInit.connectedThings)) ∧
    (ThingAccess.disconnect thConn sessInit envOk).res = .ok () := by
  have h1 := disconnect_rpc_failure_rolls_back thConn sessInit envDiscFail
    "dev1" (plainErr "disc fail") rfl rfl (by decide) rfl
    (by simp [sessInit]) (by simp [sessInit])
  have h2 := disconnect_rpc_failure_rolls_back thConn sessInit envOk
    "dev1" (plainErr "disc fail") rfl rfl (by decide) rfl
    (by simp [sessInit]) (by simp [sessInit])
  have ha := h1.1 rfl
  exact ⟨⟨ha.1, ha.2.2.2.1, ha.2.2.2.2.1 (some "dev1")⟩,
    h2.2 0 "success" none rfl⟩

/-! ## C8: getConfig normalization -/

/-- C8: for every raw driver-config payload accepted by `getConfig` (RPC
succeeded, status code zero, payload parses as JSON) that carries the
`deviceList` and `config` members, the returned string is the JSON
serialization of the object with exactly those two top-level keys, holding
the payload's sub-objects verbatim (so device entries keep their original
order); every other top-level field is discarded. -/
theorem getConfig_normalizes (s : Session) (env : Env) (payload dl cfg : Json)
    (hinit : s.initializePromise = some (.ok ()))
    (hiface : s.configInterface = true)
    (hreply : env.getConfigReply KEY_DRIVER_CONFIG = .result 0 (some payload))
    (hdl : payload.getField "deviceList" = some dl)
    (hcfg : payload.getField "config" = some cfg) :
    DriverConfigManager.getConfig s env =
      ⟨s, .ok (Json.stringify (Json.obj [("deviceList", dl), ("config", cfg)])),
        [.getConfigCall KEY_DRIVER_CONFIG]⟩ := by
  have hmemo := initialize_memoized s env _ hinit
  simp [DriverConfigManager.getConfig, hmemo, hiface, hreply, hdl, hcfg]

/-- An environment whose driver config carries an extra top-level field next
to `deviceList` and `config`. -/
def envCfgExtra : Env :=
  { envOk with getConfigReply := fun _ => .result 0 (some (.obj
      [("extra", .num 7),
       ("deviceList", .arr [.obj [("productKey", .str "pk")]]),
       ("config", .obj [("a", .num 1)])])) }

theorem getConfig_normalizes_witness :
    DriverConfigManager.getConfig sessInit envCfgExtra =
      ⟨sessInit,
        .ok (Json.stringify (Json.obj
          [("deviceList", .arr [.obj [("productKey", .str "pk")]]),
           ("config", .obj [("a", .num 1)])])),
        [.getConfigCall KEY_DRIVER_CONFIG]⟩ :=
  getConfig_normalizes sessInit envCfgExtra
    (.obj [("extra", .num 7),
           ("deviceList", .arr [.obj [("productKey", .str "pk")]]),
           ("config", .obj [("a", .num 1)])])
    (.arr [.obj [("productKey", .str "pk")]]) (.obj [("a", .num 1)])
    rfl rfl rfl rfl rfl

/-! ## C10: signal payload shapes -/

/-- C10: with the device id set, `signalEvent` emits exactly one signal
whose body is the JSON string of an object wrapping the argument object
unchanged under `value` next to a single timestamp, and `signalProperties`
emits exactly one `propertiesChanged` signal whose body is the JSON string
of the object mapping each property key to its value wrapped with a
timestamp; the caller's objects are copied, never mutated (the model builds
the bodies from the inputs functionally). -/
theorem signal_payload_shapes (th : ThingAccess) (s : Session) (tid : String)
    (eventName : String) (args : Json) (props : List (String × Json))
    (now : Int)
    (hid : th.thingId = some tid) (hne : tid ≠ "") (hbus : s.edgeBus = true)
    (hev : eventName ≠ "") :
    ThingAccess.signalEvent th s eventName args now =
      (.ok (), [.signal eventName (Json.stringify (Json.obj
        [("params", Json.obj [("time", .num now), ("value", args)])]))]) ∧
    ThingAccess.signalProperties th s props now =
      (.ok (), [.signal "propertiesChanged" (Json.stringify (Json.obj
        (props.map (fun kv =>
          (kv.1, Json.obj [("value", kv.2), ("time", .num now)])))))]) := by
  constructor <;>
    simp [ThingAccess.signalEvent, ThingAccess.signalProperties,
      ThingAccess.signalSubscribe, hid, hne, hbus, hev]

theorem signal_payload_shapes_witness :
    ThingAccess.signalEvent thConn sessInit "high_temperature"
        (.obj [("temperature", .num 41)]) 100 =
      (.ok (), [.signal "high_temperature" (Json.stringify (Json.obj
        [("params", Json.obj [("time", .num 100),
                              ("value", .obj [("temperature", .num 41)])])]))]) ∧
    ThingAccess.signalProperties thConn sessInit
        [("temperature", .num 41)] 100 =
      (.ok (), [.signal "propertiesChanged" (Json.stringify (Json.obj
        [("temperature",
          Json.obj [("value", .num 41), ("time", .num 100)])]))]) := by
  have h := signal_payload_shapes thConn sessInit "dev1" "high_temperature"
    (.obj [("temperature", .num 41)]) [("temperature", .num 41)] 100
    rfl (by decide) rfl (by decide)
  exact ⟨h.1, h.2⟩

/-! ## C3: initialize failure handling -/

/-- C3: if `Session.initializeOp` fails after the module service name was
acquired (that is, at the registration step, the only fallible step left),
the service name release is attempted — whatever its outcome — before the
bus handle, interface handles and memoized initialize promise are cleared,
and the original error is rethrown carrying the `register_module` code;
whereas a failure before the name was acquired releases nothing and
surfaces a plain (untagged) error, likewise leaving no partial state. -/
theorem initialize_failure_rollback (s : Session) (env : Env) (e : Err)
    (hmemo : s.initializePromise = none) :
    ((env.connectBus = .ok () ∧ env.dimuIface = .ok () ∧
      env.configIface = .ok () ∧
      env.requestNameRaw MODULE_SERVICE_NAME = .ok 1 ∧
      handleDefaultResult env.registerDriver = .error e) →
      (Session.initializeOp s env).res = .error (tagErr ERROR_REGISTER_MODULE e) ∧
      Call.releaseName MODULE_SERVICE_NAME ∈ (Session.initializeOp s env).calls ∧
      (Session.initializeOp s env).s.edgeBus = false ∧
      (Session.initializeOp s env).s.dimuInterface = false ∧
      (Session.initializeOp s env).s.configInterface = false ∧
      (Session.initializeOp s env).s.initializePromise = none) ∧
    ((env.connectBus = .ok () ∧ env.dimuIface = .ok () ∧
      env.configIface = .ok () ∧
      env.requestNameRaw MODULE_SERVICE_NAME = .error e) →
      (Session.initializeOp s env).res =
        .error (plainErr
          ("Could not request service name " ++ MODULE_SERVICE_NAME ++ ".")) ∧
      (Session.initializeOp s env).calls =
        [.requestName MODULE_SERVICE_NAME, .endConnection] ∧
      (Session.initializeOp s env).s.edgeBus = false ∧
      (Session.initializeOp s env).s.dimuInterface = false ∧
      (Session.initializeOp s env).s.configInterface = false ∧
      (Session.initializeOp s env).s.initializePromise = none) := by
  constructor
  · rintro ⟨h1, h2, h3, h4, h5⟩
    rcases hrel : env.releaseNameRaw MODULE_SERVICE_NAME with _ | re <;>
      simp [Session.initializeOp, Session.initializeEdgeBus,
        Session.requestName, Session.releaseName, Session.exportInterface,
        Session.registerModule, Session.initRollback, tagErr,
        hmemo, h1, h2, h3, h4, h5, hrel]
  · rintro ⟨h1, h2, h3, h4⟩
    simp [Session.initializeOp, Session.initializeEdgeBus,
      Session.requestName, Session.exportInterface, Session.initRollback,
      plainErr, hmemo, h1, h2, h3, h4]

/-- The all-success environment except that `bus.requestName` delivers a
callback error. -/
def envReqFail : Env :=
  { envOk with requestNameRaw := fun _ => .error (plainErr "req fail") }

theorem initialize_failure_rollback_witness :
    ((Session.initializeOp Session.empty envRegFail).res =
        .error (tagErr ERROR_REGISTER_MODULE (plainErr "register failed")) ∧
      Call.releaseName MODULE_SERVICE_NAME ∈
        (Session.initializeOp Session.empty envRegFail).calls ∧
      (Session.initializeOp Session.empty envRegFail).s.edgeBus = false ∧
      (Session.initializeOp Session.empty envRegFail).s.initializePromise =
        none) ∧
    ((Session.initializeOp Session.empty envReqFail).res =
        .error (plainErr
          ("Could not request service name " ++ MODULE_SERVICE_NAME ++ ".")) ∧
      (Session.initializeOp Session.empty envReqFail).calls =
        [.requestName MODULE_SERVICE_NAME, .endConnection]) := by
  have ha := (initialize_failure_rollback Session.empty envRegFail
      (plainErr "register failed") rfl).1
    ⟨rfl, rfl, rfl, rfl, rfl⟩
  have hb := (initialize_failure_rollback Session.empty envReqFail
      (plainErr "req fail") rfl).2
    ⟨rfl, rfl, rfl, rfl⟩
  exact ⟨⟨ha.1, ha.2.1, ha.2.2.1, ha.2.2.2.2.2⟩, ⟨hb.1, hb.2.1⟩⟩

/-! ## C2: initialize idempotence -/

theorem initializeEdgeBus_calls (s : Session) (env : Env) :
    (Session.initializeEdgeBus s env).calls = [] := by
  unfold Session.initializeEdgeBus
  rcases env.connectBus with _ | _
  · rfl
  · rcases env.dimuIface with _ | _
    · rfl
    · rcases env.configIface with _ | _ <;> rfl

theorem registerDriver_not_in_requestName (s : Session) (env : Env)
    (n : String) :
    Call.registerDriver ∉ (Session.requestName s env n).calls := by
  unfold Session.requestName
  split
  · simp
  · split
    · simp
    · split
      · simp
      · split <;> simp

theorem registerDriver_not_in_exportInterface (s : Session) (p : String) :
    Call.registerDriver ∉ (Session.exportInterface s p).calls := by
  unfold Session.exportInterface
  split <;> simp

theorem registerModule_count (s : Session) (env : Env) :
    (Session.registerModule s env).calls.count Call.registerDriver ≤ 1 := by
  unfold Session.registerModule
  split
  · simp
  · split <;> simp

/-- After a successful `initialize`, the memo holds the resolved success and
at most one `registerDriver` RPC was issued by that call. -/
theorem initialize_ok_state (s : Session) (env : Env)
    (h : (Session.initializeOp s env).res = .ok ()) :
    (Session.initializeOp s env).s.initializePromise = some (.ok ()) ∧
    (Session.initializeOp s env).calls.count Call.registerDriver ≤ 1 := by
  rcases hm : s.initializePromise with _ | out
  · rcases h1 : (Session.initializeEdgeBus s env).res with e1 | u1
    · simp [Session.initializeOp, Session.initRollback, hm, h1] at h
    · rcases h2 : ((Session.initializeEdgeBus s env).s.requestName env
          MODULE_SERVICE_NAME).res with e2 | u2
      · simp [Session.initializeOp, Session.initRollback, hm, h1, h2] at h
      · rcases h3 : (((Session.initializeEdgeBus s env).s.requestName env
            MODULE_SERVICE_NAME).s.exportInterface MODULE_OBJECT_PATH).res
            with e3 | u3
        · simp [Session.initializeOp, Session.initRollback, hm, h1, h2, h3] at h
        · rcases h4 : ((((Session.initializeEdgeBus s env).s.requestName env
              MODULE_SERVICE_NAME).s.exportInterface
              MODULE_OBJECT_PATH).s.registerModule env).res with e4 | u4
          · by_cases he : e4.code = some ERROR_REGISTER_MODULE <;>
              simp [Session.initializeOp, Session.initRollback, hm, h1, h2, h3,
                h4, he] at h
          · constructor
            · simp [Session.initializeOp, hm, h1, h2, h3, h4]
            · simp only [Session.initializeOp, hm, h1, h2, h3, h4]
              simp only [List.count_append, initializeEdgeBus_calls,
                List.count_nil]
              have hr := List.count_eq_zero.mpr
                (registerDriver_not_in_requestName
                  (Session.initializeEdgeBus s env).s env MODULE_SERVICE_NAME)
              have hx := List.count_eq_zero.mpr
                (registerDriver_not_in_exportInterface
                  ((Session.initializeEdgeBus s env).s.requestName env
                    MODULE_SERVICE_NAME).s MODULE_OBJECT_PATH)
              have hg := registerModule_count
                (((Session.initializeEdgeBus s env).s.requestName env
                  MODULE_SERVICE_NAME).s.exportInterface MODULE_OBJECT_PATH).s
                env
              omega
  · have hstep := initialize_memoized s env out hm
    rw [hstep] at h ⊢
    obtain rfl : out = .ok () := h
    simp [hm]

/-- C2 counterexample: when the first `initialize` fails at the registration
RPC, the memoized promise is cleared, so a second sequential call — with no
teardown in between — re-runs initialization and a second `registerDriver`
RPC is issued on the bus, contradicting the at-most-one-RPC claim. -/
theorem initialize_two_register_rpcs :
    (initSeq Session.empty envRegFail 2).2.2.count Call.registerDriver = 2 := by
  decide

/-- C2 amended: once a call to `initialize()` has succeeded (and while no
teardown intervenes), every further call returns the same successful outcome
without issuing any bus call, and the succeeding call itself issued at most
one `registerDriver` RPC; after a failed call, however, the memo is cleared
and a retry re-runs initialization. -/
theorem initialize_coalesces_after_success (s : Session) (env : Env)
    (h : (Session.initializeOp s env).res = .ok ()) :
    (Session.initializeOp s env).calls.count Call.registerDriver ≤ 1 ∧
    ∀ n, initSeq (Session.initializeOp s env).s env n =
      ((Session.initializeOp s env).s, List.replicate n (.ok ()), []) := by
  obtain ⟨hmemo, hcount⟩ := initialize_ok_state s env h
  refine ⟨hcount, ?_⟩
  intro n
  induction n with
  | zero => rfl
  | succ k ih =>
    have hstep := initialize_memoized (Session.initializeOp s env).s env _ hmemo
    simp [initSeq, hstep, ih, List.replicate]

theorem initialize_coalesces_after_success_witness :
    (Session.initializeOp Session.empty envOk).res = .ok () ∧
    (Session.initializeOp Session.empty envOk).calls.count
      Call.registerDriver ≤ 1 ∧
    initSeq (Session.initializeOp Session.empty envOk).s envOk 3 =
      ((Session.initializeOp Session.empty envOk).s,
        [.ok (), .ok (), .ok ()], []) := by
  have h0 : (Session.initializeOp Session.empty envOk).res = .ok () := rfl
  have h := initialize_coalesces_after_success Session.empty envOk h0
  exact ⟨h0, h.1, h.2 3⟩

/-! ## C4: finalize behavior -/

theorem releaseName_s (s : Session) (env : Env) (n : String) :
    (Session.releaseName s env n).s = s := by
  unfold Session.releaseName
  split
  · rfl
  · split <;> rfl

theorem releaseName_calls_of_bus (s : Session) (env : Env) (n : String)
    (h : s.edgeBus = true) :
    (Session.releaseName s env n).calls = [.releaseName n] := by
  unfold Session.releaseName
  rw [if_neg (by simp [h])]
  split <;> rfl

/-- C4 counterexample: in a live session, (i) when the `unregisterDriver`
RPC fails, finalize rejects without ever attempting the name release and
without clearing the device sets — the release-name step does not "still
run" and the state is not cleared; and (ii) when the name release fails,
finalize nevertheless resolves successfully and keeps its memoized promise —
it does not reject. -/
theorem finalize_counterexample :
    ((Session.finalize sessInit envUnregFail).calls = [.unregisterDriver] ∧
      (Session.finalize sessInit envUnregFail).s.things = [some "dev1"] ∧
      (Session.finalize sessInit envUnregFail).res =
        .error (plainErr "Cannot unregister module")) ∧
    ((Session.finalize sessInit envReleaseFail).res = .ok () ∧
      (Session.finalize sessInit envReleaseFail).s.finalizePromise =
        some (.ok ()) ∧
      (Session.finalize sessInit envReleaseFail).calls =
        [.unregisterDriver, .releaseName MODULE_SERVICE_NAME,
         .endConnection]) :=
  ⟨⟨rfl, rfl, rfl⟩, ⟨rfl, rfl, rfl⟩⟩

/-- C4 amended: in `Session.finalize()`, the unregister RPC is attempted
first; if it fails, finalize rejects with that error and clears the
memoized finalize promise (so a retry is possible), and the release-name
and state-clearing steps are skipped.  If the unregister RPC succeeds, the
module service name release is attempted, and regardless of the release's
success or failure all session state (bus handle, interfaces, device and
connected sets, listeners) is cleared and finalize resolves successfully
with the resolved promise memoized. -/
theorem finalize_behavior (s : Session) (env : Env)
    (hmemo : s.finalizePromise = none) (hdimu : s.dimuInterface = true) :
    (∀ e, handleDefaultResult env.unregisterDriver = .error e →
      (Session.finalize s env).res = .error e ∧
      (Session.finalize s env).s = { s with finalizePromise := none } ∧
      (Session.finalize s env).calls = [.unregisterDriver]) ∧
    (∀ c m p, handleDefaultResult env.unregisterDriver = .ok (c, m, p) →
      (Session.finalize s env).res = .ok () ∧
      (Session.finalize s env).s.things = [] ∧
      (Session.finalize s env).s.connectedThings = [] ∧
      (Session.finalize s env).s.edgeBus = false ∧
      (Session.finalize s env).s.dimuInterface = false ∧
      (Session.finalize s env).s.configInterface = false ∧
      (Session.finalize s env).s.emitterListeners = 0 ∧
      (Session.finalize s env).s.initializePromise = none ∧
      (Session.finalize s env).s.finalizePromise = some (.ok ()) ∧
      (s.edgeBus = true →
        Call.releaseName MODULE_SERVICE_NAME ∈ (Session.finalize s env).calls)) := by
  constructor
  · intro e he
    simp [Session.finalize, Session.unregisterModule, hmemo, hdimu, he]
  · intro c m p hok
    simp [Session.finalize, Session.unregisterModule, Session.finalizeReset,
      hmemo, hdimu, hok, releaseName_s]
    intro hbus
    rw [releaseName_calls_of_bus s env MODULE_SERVICE_NAME hbus]
    simp

theorem finalize_behavior_witness :
    ((Session.finalize sessInit envUnregFail).res =
        .error (plainErr "Cannot unregister module") ∧
      (Session.finalize sessInit envUnregFail).s =
        { sessInit with finalizePromise := none }) ∧
    ((Session.finalize sessInit envReleaseFail).res = .ok () ∧
      (Session.finalize sessInit envReleaseFail).s.things = [] ∧
      Call.releaseName MODULE_SERVICE_NAME ∈
        (Session.finalize sessInit envReleaseFail).calls) := by
  have h1 := (finalize_behavior sessInit envUnregFail rfl rfl).1
    (plainErr "Cannot unregister module") rfl
  have h2 := (finalize_behavior sessInit envReleaseFail rfl rfl).2
    0 "success" none rfl
  exact ⟨⟨h1.1, h1.2.1⟩, ⟨h2.1, h2.2.1, h2.2.2.2.2.2.2.2.2.2 rfl⟩⟩

/-! ## C1: lifecycle sequence -/

/-- C1 counterexample: with every bus RPC succeeding, the lifecycle
setup → connect → disconnect → unregister → cleanup does not have all
intermediate operations succeed: a successful disconnect clears the device
id, so the subsequent `unregister()` rejects with a precondition error,
issuing no RPC at all. -/
theorem lifecycle_unregister_rejects :
    ((lifecycle (ThingAccess.new cfg0) Session.empty envOk).2.2.2.1).res =
      .error { code := some ERROR_UNREGISTER,
               message := "Thing has not been connected or has been cleaned up." } ∧
    ((lifecycle (ThingAccess.new cfg0) Session.empty envOk).2.2.2.1).calls =
      [] :=
  ⟨rfl, rfl⟩

/-- C1 amended: for every execution of setup, connect, disconnect,
unregister, cleanup on one fresh device-access instance with every bus RPC
succeeding: setup, connect, disconnect and cleanup succeed; the device id is
defined right after connect and the session's connected set contains it
exactly between the success of connect and the success of disconnect
(member immediately after connect, not a member immediately after
disconnect); the id stays cleared through unregister; but unregister itself
rejects with a precondition error and issues no RPC, because the preceding
disconnect already cleared the device id (in this variant unregister must be
invoked while the device is still connected). -/
theorem lifecycle_amended (env : Env) (cfg : ThingConfig)
    (tid mr mc md mu : String) (pr pd pu : Option Json)
    (h1 : env.connectBus = .ok ()) (h2 : env.dimuIface = .ok ())
    (h3 : env.configIface = .ok ())
    (h4 : ∀ n, env.requestNameRaw n = .ok 1)
    (h5 : ∀ n, env.releaseNameRaw n = none)
    (h6 : env.registerDriver = .parsed 0 mr pr)
    (h7 : env.connectDev =
      .parsed 0 mc (some (.obj [("deviceCloudId", .str tid)])))
    (h8 : tid ≠ "")
    (h9 : env.disconnectDev tid = .parsed 0 md pd)
    (_h10 : env.unregisterDevice tid = .parsed 0 mu pu) :
    ((lifecycle (ThingAccess.new cfg) Session.empty env).1.res = .ok ()) ∧
    ((lifecycle (ThingAccess.new cfg) Session.empty env).2.1.res = .ok ()) ∧
    ((lifecycle (ThingAccess.new cfg) Session.empty env).2.1.th.thingId =
      some tid) ∧
    (some tid ∈
      (lifecycle (ThingAccess.new cfg) Session.empty env).2.1.s.connectedThings) ∧
    ((lifecycle (ThingAccess.new cfg) Session.empty env).2.2.1.res = .ok ()) ∧
    ((lifecycle (ThingAccess.new cfg) Session.empty env).2.2.1.th.thingId =
      none) ∧
    (some tid ∉
      (lifecycle (ThingAccess.new cfg) Session.empty env).2.2.1.s.connectedThings) ∧
    ((lifecycle (ThingAccess.new cfg) Session.empty env).2.2.2.1.res =
      .error (mkErr ERROR_UNREGISTER
        "Thing has not been connected or has been cleaned up.")) ∧
    ((lifecycle (ThingAccess.new cfg) Session.empty env).2.2.2.1.calls = []) ∧
    ((lifecycle (ThingAccess.new cfg) Session.empty env).2.2.2.1.th.thingId =
      none) ∧
    ((lifecycle (ThingAccess.new cfg) Session.empty env).2.2.2.2.res =
      .ok ()) := by
  simp [lifecycle, ThingAccess.setup, ThingAccess.new, Session.empty,
    Session.initializeOp, Session.initializeEdgeBus, Session.requestName,
    Session.exportInterface, Session.registerModule, handleDefaultResult,
    ThingAccess.connect, ThingAccess.connectRpc, Json.getField, List.lookup,
    ThingAccess.disconnect, ThingAccess.disconnectRpc, Session.releaseName,
    ThingAccess.unregister, ThingAccess.unregisterThing, ThingAccess.cleanup,
    setAdd, setDelete, h1, h2, h3, h4, h5, h6, h7, h8, h9, _h10]

theorem lifecycle_amended_witness :
    ((lifecycle (ThingAccess.new cfg0) Session.empty envOk).2.1.res =
      .ok ()) ∧
    ((lifecycle (ThingAccess.new cfg0) Session.empty envOk).2.1.th.thingId =
      some "thing1") ∧
    (some "thing1" ∈
      (lifecycle (ThingAccess.new cfg0) Session.empty envOk).2.1.s.connectedThings) ∧
    (some "thing1" ∉
      (lifecycle (ThingAccess.new cfg0) Session.empty envOk).2.2.1.s.connectedThings) ∧
    ((lifecycle (ThingAccess.new cfg0) Session.empty envOk).2.2.2.2.res =
      .ok ()) := by
  have h := lifecycle_amended envOk cfg0 "thing1" "success" "success"
    "success" "success" none none none rfl rfl rfl (fun _ => rfl)
    (fun _ => rfl) rfl rfl (by decide) rfl rfl
  exact ⟨h.2.1, h.2.2.1, h.2.2.2.1, h.2.2.2.2.2.2.1, h.2.2.2.2.2.2.2.2.2.2⟩

/-! ## C9: things and connectedThings coincide -/

theorem requestName_s (s : Session) (env : Env) (n : String) :
    (Session.requestName s env n).s = s := by
  unfold Session.requestName
  split
  · rfl
  · split
    · rfl
    · split
      · rfl
      · split <;> rfl

theorem exportInterface_s (s : Session) (p : String) :
    (Session.exportInterface s p).s = s := by
  unfold Session.exportInterface
  split <;> rfl

theorem registerModule_s (s : Session) (env : Env) :
    (Session.registerModule s env).s = s := by
  unfold Session.registerModule
  split
  · rfl
  · split <;> rfl

theorem unregisterModule_s (s : Session) (env : Env) :
    (Session.unregisterModule s env).s = s := by
  unfold Session.unregisterModule
  split
  · rfl
  · split <;> rfl

theorem connectRpc_s (s : Session) (env : Env) :
    (ThingAccess.connectRpc s env).s = s := by
  unfold ThingAccess.connectRpc
  split
  · rfl
  · split
    · rfl
    · split
      · rfl
      · split
        · split <;> rfl
        · rfl

theorem disconnectRpc_s (s : Session) (env : Env) (tid : String) :
    (ThingAccess.disconnectRpc s env tid).s = s := by
  unfold ThingAccess.disconnectRpc
  split
  · rfl
  · split <;> rfl

theorem unregisterThing_s (s : Session) (env : Env) (tid : String) :
    (ThingAccess.unregisterThing s env tid).s = s := by
  unfold ThingAccess.unregisterThing
  split
  · rfl
  · split <;> rfl

theorem initializeEdgeBus_things (s : Session) (env : Env) :
    (Session.initializeEdgeBus s env).s.things = s.things := by
  unfold Session.initializeEdgeBus
  rcases env.connectBus with _ | _
  · rfl
  · rcases env.dimuIface with _ | _
    · rfl
    · rcases env.configIface with _ | _ <;> rfl

theorem initializeEdgeBus_connected (s : Session) (env : Env) :
    (Session.initializeEdgeBus s env).s.connectedThings = s.connectedThings := by
  unfold Session.initializeEdgeBus
  rcases env.connectBus with _ | _
  · rfl
  · rcases env.dimuIface with _ | _
    · rfl
    · rcases env.configIface with _ | _ <;> rfl

theorem initRollback_things (s : Session) (e : Err) :
    (Session.initRollback s e).s.things = s.things := by
  simp [Session.initRollback]

theorem initRollback_connected (s : Session) (e : Err) :
    (Session.initRollback s e).s.connectedThings = s.connectedThings := by
  simp [Session.initRollback]

/-- Neither `initialize` branch touches the device sets. -/
theorem initialize_sets (s : Session) (env : Env) :
    (Session.initializeOp s env).s.things = s.things ∧
    (Session.initializeOp s env).s.connectedThings = s.connectedThings := by
  simp only [Session.initializeOp]
  split
  · exact ⟨rfl, rfl⟩
  · split
    · constructor <;>
        simp [initRollback_things, initRollback_connected,
          initializeEdgeBus_things, initializeEdgeBus_connected]
    · split
      · constructor <;>
          simp [initRollback_things, initRollback_connected, requestName_s,
            initializeEdgeBus_things, initializeEdgeBus_connected]
      · split
        · constructor <;>
            simp [initRollback_things, initRollback_connected,
              exportInterface_s, requestName_s, initializeEdgeBus_things,
              initializeEdgeBus_connected]
        · split
          · split <;> constructor <;>
              simp [initRollback_things, initRollback_connected,
                releaseName_s, registerModule_s, exportInterface_s,
                requestName_s, initializeEdgeBus_things,
                initializeEdgeBus_connected]
          · constructor <;>
              simp [registerModule_s, exportInterface_s, requestName_s,
                initializeEdgeBus_things, initializeEdgeBus_connected]

theorem inv_finalize (s : Session) (env : Env)
    (h : s.things = s.connectedThings) :
    (Session.finalize s env).s.things =
      (Session.finalize s env).s.connectedThings := by
  simp only [Session.finalize]
  split
  · exact h
  · split
    · simp [unregisterModule_s, h]
    · simp [Session.finalizeReset]

theorem inv_connectCatch (th : ThingAccess) (s : Session) (env : Env)
    (e : Err) (acc : List Call) (h : s.things = s.connectedThings) :
    (ThingAccess.connectCatch th s env e acc).s.things =
      (ThingAccess.connectCatch th s env e acc).s.connectedThings := by
  simp only [ThingAccess.connectCatch]
  split
  · split
    · exact h
    · simp [disconnectRpc_s, h]
  · exact h

theorem inv_connect (th : ThingAccess) (s : Session) (env : Env)
    (h : s.things = s.connectedThings) :
    (ThingAccess.connect th s env).s.things =
      (ThingAccess.connect th s env).s.connectedThings := by
  rcases hm : th.connectPromise with _ | out
  · simp only [ThingAccess.connect, hm]
    split
    · exact inv_connectCatch _ _ _ _ _ (by simp [connectRpc_s, h])
    · split
      · exact inv_connectCatch _ _ _ _ _
          (by simp [requestName_s, connectRpc_s, h])
      · split
        · exact inv_connectCatch _ _ _ _ _
            (by simp [exportInterface_s, requestName_s, connectRpc_s, h])
        · simp [exportInterface_s, requestName_s, connectRpc_s, h]
  · simp only [ThingAccess.connect, hm]
    exact h

theorem inv_disconnectCatch (th : ThingAccess) (s : Session)
    (tid : Option String) (ti : Bool) (e : Err) (acc : List Call)
    (h : s.things = s.connectedThings) :
    (ThingAccess.disconnectCatch th s tid ti e acc).s.things =
      (ThingAccess.disconnectCatch th s tid ti e acc).s.connectedThings := by
  simp [ThingAccess.disconnectCatch, h]

theorem inv_disconnect (th : ThingAccess) (s : Session) (env : Env)
    (h : s.things = s.connectedThings) :
    (ThingAccess.disconnect th s env).s.things =
      (ThingAccess.disconnect th s env).s.connectedThings := by
  rcases hm : th.disconnectPromise with _ | out
  · simp only [ThingAccess.disconnect, hm]
    split
    · exact inv_disconnectCatch _ _ _ _ _ _ h
    · split
      · exact inv_disconnectCatch _ _ _ _ _ _ h
      · split
        · exact inv_disconnectCatch _ _ _ _ _ _
            (by simp [disconnectRpc_s, h])
        · simp [releaseName_s, disconnectRpc_s, h]
  · simp only [ThingAccess.disconnect, hm]
    exact h

theorem inv_setup (th : ThingAccess) (s : Session) (env : Env)
    (h : s.things = s.connectedThings) :
    (ThingAccess.setup th s env).s.things =
      (ThingAccess.setup th s env).s.connectedThings := by
  rcases hm : th.setupPromise with _ | out
  · simp only [ThingAccess.setup, hm]
    split <;>
      simp [(initialize_sets s env).1, (initialize_sets s env).2, h]
  · simp only [ThingAccess.setup, hm]
    exact h

theorem inv_unregister (th : ThingAccess) (s : Session) (env : Env)
    (h : s.things = s.connectedThings) :
    (ThingAccess.unregister th s env).s.things =
      (ThingAccess.unregister th s env).s.connectedThings := by
  rcases hm : th.unregisterPromise with _ | out
  · by_cases hc : th.connectPromise.isSome
    · have hd := inv_disconnect th s env h
      simp only [ThingAccess.unregister, hm, hc, ite_true]
      split
      · exact hd
      · split
        · exact hd
        · split
          · exact hd
          · split <;> simp [unregisterThing_s, hd]
    · simp only [ThingAccess.unregister, hm, hc, ite_false]
      split
      · exact h
      · split
        · exact h
        · split
          · exact h
          · split <;> simp [unregisterThing_s, h]
  · simp only [ThingAccess.unregister, hm]
    exact h

theorem inv_cleanup (th : ThingAccess) (s : Session) (env : Env)
    (h : s.things = s.connectedThings) :
    (ThingAccess.cleanup th s env).s.things =
      (ThingAccess.cleanup th s env).s.connectedThings := by
  rcases hm : th.cleanupPromise with _ | out
  · by_cases hc : th.connectPromise.isSome
    · have hd := inv_disconnect th s env h
      simp only [ThingAccess.cleanup, hm, hc, ite_true]
      split
      · exact hd
      · exact hd
    · simp only [ThingAccess.cleanup, hm, hc, ite_false]
      split
      · exact h
      · exact h
  · simp only [ThingAccess.cleanup, hm]
    exact h

/-- The session state `getConfig` leaves behind is exactly the one
`initialize` produced. -/
theorem getConfig_s (s : Session) (env : Env) :
    (DriverConfigManager.getConfig s env).s = (Session.initializeOp s env).s := by
  simp only [DriverConfigManager.getConfig]
  split
  · rfl
  · split
    · rfl
    · split
      · rfl
      · split
        · rfl
        · split <;> rfl

theorem inv_getConfig (s : Session) (env : Env)
    (h : s.things = s.connectedThings) :
    (DriverConfigManager.getConfig s env).s.things =
      (DriverConfigManager.getConfig s env).s.connectedThings := by
  have hi := initialize_sets s env
  rw [getConfig_s, hi.1, hi.2]
  exact h

/-- A set never contains an element that it contains, so filtering a list by
non-membership in itself leaves nothing. -/
theorem offline_filter_self_empty (l : JsSet) :
    l.filter (fun t => ! l.contains t) = [] := by
  rw [List.filter_eq_nil_iff]
  intro a ha
  simpa using ha

/-- C9: every modelled public operation preserves the invariant that the
session's connected-things set equals its known-things set — connect adds
the device id to both together, disconnect removes it from both together
(and its rollback re-adds it to both), finalize clears both, and the other
operations touch neither — and under this invariant the `offline` selector
of `getDeviceList` returns an empty device list. -/
theorem sets_coincide_invariant (th : ThingAccess) (s : Session) (env : Env)
    (sel : Option String) (h : s.things = s.connectedThings) :
    ((Session.initializeOp s env).s.things =
      (Session.initializeOp s env).s.connectedThings) ∧
    ((Session.finalize s env).s.things =
      (Session.finalize s env).s.connectedThings) ∧
    ((ThingAccess.setup th s env).s.things =
      (ThingAccess.setup th s env).s.connectedThings) ∧
    ((ThingAccess.connect th s env).s.things =
      (ThingAccess.connect th s env).s.connectedThings) ∧
    ((ThingAccess.disconnect th s env).s.things =
      (ThingAccess.disconnect th s env).s.connectedThings) ∧
    ((ThingAccess.unregister th s env).s.things =
      (ThingAccess.unregister th s env).s.connectedThings) ∧
    ((ThingAccess.cleanup th s env).s.things =
      (ThingAccess.cleanup th s env).s.connectedThings) ∧
    ((DriverConfigManager.getConfig s env).s.things =
      (DriverConfigManager.getConfig s env).s.connectedThings) ∧
    (selectorValue sel = some "offline" → deviceListOf s sel = []) := by
  refine ⟨?_, inv_finalize s env h, inv_setup th s env h,
    inv_connect th s env h, inv_disconnect th s env h,
    inv_unregister th s env h, inv_cleanup th s env h,
    inv_getConfig s env h, ?_⟩
  · have hi := initialize_sets s env
    rw [hi.1, hi.2, h]
  · intro hsel
    simp only [deviceListOf, hsel, h]
    exact offline_filter_self_empty s.connectedThings

theorem sets_coincide_invariant_witness :
    ((ThingAccess.connect thConn sessInit envOk).s.things =
      (ThingAccess.connect thConn sessInit envOk).s.connectedThings) ∧
    ((ThingAccess.disconnect thConn sessInit envOk).s.things =
      (ThingAccess.disconnect thConn sessInit envOk).s.connectedThings) ∧
    deviceListOf sessInit (some "deviceState=offline") = [] := by
  have h := sets_coincide_invariant thConn sessInit envOk
    (some "deviceState=offline") rfl
  exact ⟨h.2.2.2.1, h.2.2.2.2.1, h.2.2.2.2.2.2.2.2 (by decide)⟩
